import Mathlib

set_option linter.unusedVariables false

namespace MkServe

/-- Exceptions that can cross the boundaries of `serve` (serve.py).
`templateError` models `jinja2.exceptions.TemplateError` (a subclass of `OSError`,
but handled by its own earlier `except` clause, serve.py lines 119-121),
`osError` models any other `OSError` carrying its type name and message,
`abort` models `mkdocs.exceptions.Abort`, `keyboardInterrupt` models
`KeyboardInterrupt`, `configError` a failure inside `load_config`, and
`buildError` any non-OSError failure of `build`. -/
inductive Exc where
  | configError (msg : String)
  | templateError (msg : String)
  | osError (ename emsg : String)
  | buildError (msg : String)
  | keyboardInterrupt
  | abort (msg : String)
deriving DecidableEq

/-- The resolved configuration dict as used by serve.py: the fields that
`serve` reads or writes (`site_url`, `dev_addr`, `docs_dir`,
`config_file_path`, `theme.dirs`, `watch`, `site_dir`). -/
structure Config where
  site_url : Option String
  dev_addr : String × Nat
  docs_dir : String
  config_file_path : String
  theme_dirs : List String
  watch : Option (List String)
  site_dir : String
deriving DecidableEq

/-- Observable actions of one run of `serve` (serve.py lines 41-128), in order:
directory creation, plugin events, build invocations (with the config and the
two flags passed to `build`), server construction (host, port, root, mount
path), error-handler installation, watch registrations (tagged with the handle
of the server they are registered on), the blocking serve loop, server
shutdown, and removal of the temporary directory. -/
inductive Ev where
  | mkdtemp (dir : String)
  | evStartup (command : String) (dirty : Bool)
  | build (cfg : Config) (liveServer : Bool) (dirty : Bool)
  | serverNew (handle : Nat) (host : String) (port : Nat) (root : String) (mount : String)
  | setErrorHandler (handle : Nat)
  | watch (handle : Nat) (path : String)
  | evServe (handle : Nat)
  | serveLoop (handle : Nat)
  | serverShutdown (handle : Nat)
  | evShutdown
  | rmtree (dir : String)
deriving DecidableEq

/-- The environment a run of `serve` executes in: the outcome of reading the
config file, which external calls raise, what the `serve` plugin event returns
as replacement server handle (serve.py line 107), and whether some external
agent removed the temporary directory before teardown reaches its `isdir`
check (serve.py line 127). -/
structure Env where
  loadResult : Except Exc Config
  startupExc : Option Exc
  buildExc : Option Exc
  serveEventExc : Option Exc
  serveEventResult : Nat → Nat
  serveLoopExc : Option Exc
  externallyRemoved : Bool

/-- Result of a run of `serve`: the trace of observable actions, the exception
propagating to the caller (`none` = normal return), and whether the temporary
directory still exists when control returns. -/
structure RunResult where
  trace : List Ev
  exc : Option Exc
  dirExists : Bool
deriving DecidableEq

/-- Modelled from the spec: `ConfigLoader.load(path, overrides) -> Config`
(spec section 6) applied as in serve.py lines 46-55, where `serve` passes the
freshly created temporary directory as the `site_dir` override; per the
invariant of spec section 4.1 the explicit override always takes precedence
over the caller- or file-specified workspace path. `fileConfig` stands for the
configuration produced from the config file and remaining overrides at the
time of the call. -/
def load_config (fileConfig : Config) (siteDir : String) : Config :=
  { fileConfig with site_dir := siteDir }

/-- serve.py lines 46-55: `get_config = functools.partial(load_config, ...,
site_dir=site_dir, **kwargs)`. -/
def get_config (fileConfig : Config) (siteDir : String) : Config :=
  load_config fileConfig siteDir

/-- Python truthiness used at serve.py line 44: `config['site_url'] or '/'`
(both `None` and the empty string are falsy). -/
def orSlash : Option String → String
  | none => "/"
  | some s => if s = "" then "/" else s

/-- One step of `urllib.parse.urlsplit`: split a list at the first occurrence
of the character `c`, returning the parts before and after it. -/
def splitFirst (c : Char) : List Char → Option (List Char × List Char)
  | [] => none
  | x :: xs =>
    if x = c then some ([], xs)
    else
      match splitFirst c xs with
      | some (pre, post) => some (x :: pre, post)
      | none => none

/-- Scheme validity test of `urllib.parse.urlsplit`: nonempty, first character
an ASCII letter, all characters letters, digits, `+`, `-` or `.`. -/
def schemeOk : List Char → Bool
  | [] => false
  | c :: cs =>
    c.isAlpha && (c :: cs).all (fun x => x.isAlphanum || x == '+' || x == '-' || x == '.')

/-- `urllib.parse.urlsplit` scheme removal: if the text before the first `:`
is a valid scheme, drop it together with the colon; otherwise keep the input. -/
def dropSchemeL (l : List Char) : List Char :=
  match splitFirst ':' l with
  | some (pre, post) => if schemeOk pre then post else l
  | none => l

/-- Longest prefix containing none of the given stop characters
(`urllib.parse.urlsplit` cuts the path at `?` and `#`). -/
def takeNonStop (stops : List Char) : List Char → List Char
  | [] => []
  | c :: cs => if c ∈ stops then [] else c :: takeNonStop stops cs

/-- Remainder from the first occurrence of a stop character on
(`urllib.parse._splitnetloc` keeps the delimiter in the path). -/
def dropToStop (stops : List Char) : List Char → List Char
  | [] => []
  | c :: cs => if c ∈ stops then c :: cs else dropToStop stops cs

/-- Network-location removal of `urllib.parse.urlsplit`: when the input starts
with `//`, drop those two characters and everything up to (but not including)
the first `/`, `?` or `#`. -/
def netlocStripped (l : List Char) : List Char :=
  if l.take 2 = ['/', '/'] then dropToStop ['/', '?', '#'] (l.drop 2) else l

/-- Path component of `urllib.parse.urlsplit`, on character lists: strip a
valid scheme, strip the network location after `//` (delimited by `/`, `?` or
`#`), and cut the rest at the first `?` or `#`. -/
def urlsplitPathL (l : List Char) : List Char :=
  takeNonStop ['?', '#'] (netlocStripped (dropSchemeL l))

/-- Path component of `urllib.parse.urlsplit` on strings. -/
def urlsplitPath (s : String) : String :=
  ⟨urlsplitPathL s.data⟩

/-- serve.py lines 43-44: `mount_path(config) = urlsplit(config['site_url'] or '/').path`. -/
def mountPathFn (cfg : Config) : String :=
  urlsplitPath (orSlash cfg.site_url)

/-- Modelled from the spec: the string rendering of the `dev_addr` value
(`host:port`) interpolated at serve.py line 72; the `_IpAddress` class
providing `__str__` is outside the given sources, and the spec fixes the
rewritten base URL to `http://{host}:{port}{mountPath}` (spec section 4.2). -/
def devAddrStr (cfg : Config) : String :=
  cfg.dev_addr.1 ++ ":" ++ toString cfg.dev_addr.2

/-- serve.py lines 65-69: combine CLI watch arguments with config file values
(`None` is replaced by the CLI list, an existing list is extended). -/
def mergedWatch (watchArg : List String) (cfg : Config) : List String :=
  match cfg.watch with
  | none => watchArg
  | some w => w ++ watchArg

/-- serve.py lines 65-72, the in-place mutations `builder` applies to the
config before calling `build`: merge the watch lists, then overwrite
`site_url` with `http://` + `dev_addr` + the mount path of the config as it
stands at that moment. -/
def builderStep (watchArg : List String) (cfg : Config) : Config :=
  let c1 : Config := { cfg with watch := some (mergedWatch watchArg cfg) }
  { c1 with site_url := some ("http://" ++ devAddrStr c1 ++ mountPathFn c1) }

/-- Record of one invocation of the external `build` function
(serve.py line 74): the config it receives and the two flags. -/
structure BuildCall where
  config : Config
  liveServer : Bool
  dirty : Bool
deriving DecidableEq

/-- serve.py lines 60-74, the `builder` callback handed to the preview server:
if no config is passed it resolves a fresh one through `get_config` (reading
the config file as it stands at invocation time, `fileConfig`), applies the
watch merge and base-URL rewrite, and calls `build` exactly once. The result
lists the `build` invocations performed. -/
def builderRun (fileConfig : Config) (siteDir : String) (watchArg : List String)
    (live_server dirty : Bool) (cfgOpt : Option Config) : List BuildCall :=
  let config :=
    match cfgOpt with
    | none => get_config fileConfig siteDir
    | some c => c
  [{ config := builderStep watchArg config, liveServer := live_server, dirty := dirty }]

/-- serve.py lines 88-95: the installed error handler. For a status code in
(404, 500) it looks up `{code}.html` (with the brace-interpolation of the
f-string) inside the workspace in the filesystem as it is at request time
(`fs`), returning the file bytes when the file exists and nothing otherwise;
all other codes fall through to `None`. -/
def error_handler (siteDir : String) (fs : String → Option (List Nat)) (code : Nat) :
    Option (List Nat) :=
  if code == 404 || code == 500 then
    match fs (siteDir ++ "/" ++ toString code ++ ".html") with
    | some bytes => some bytes
    | none => none
  else none

/-- serve.py lines 112-118, the exception leaving the inner
`try: server.serve() except KeyboardInterrupt: ... finally: server.shutdown()`
block: a `KeyboardInterrupt` from the serve loop is caught and logged, any
other exception propagates after the finally clause runs. -/
def loopExc (env : Env) : Option Exc :=
  match env.serveLoopExc with
  | some Exc.keyboardInterrupt => none
  | e => e

/-- Trace of the inner serve-loop block (serve.py lines 112-118): the blocking
`server.serve()` call followed by the unconditional `server.shutdown()`,
both on the currently active handle. -/
def loopEvs (handle : Nat) : List Ev :=
  [Ev.serveLoop handle, Ev.serverShutdown handle]

/-- serve.py lines 98-104: the core watch registrations on the freshly
constructed server (handle 0): the docs directory, the config file path, and,
when theme watching is enabled, every theme directory. -/
def coreWatchEvs (watch_theme : Bool) (cfg : Config) : List Ev :=
  [Ev.watch 0 cfg.docs_dir, Ev.watch 0 cfg.config_file_path]
    ++ (if watch_theme then cfg.theme_dirs.map (Ev.watch 0) else [])

/-- serve.py lines 97-110: when live reload is active, register the core
watches, dispatch the `serve` plugin event on handle 0, and (when that event
returns normally) register every entry of the merged watch list on the handle
the event returned; when live reload is off, none of this happens. -/
def watchEvs (watch_theme : Bool) (env : Env) (cfg : Config) (live_server : Bool) : List Ev :=
  if live_server then
    coreWatchEvs watch_theme cfg ++ [Ev.evServe 0]
      ++ (match env.serveEventExc with
          | some _ => []
          | none => (cfg.watch.getD []).map (Ev.watch (env.serveEventResult 0)))
  else []

/-- The server handle every operation after the watch phase runs on: the
value returned by the `serve` plugin event when it was dispatched and
returned normally (serve.py line 107), the original handle 0 otherwise. -/
def activeHandle (env : Env) (live_server : Bool) : Nat :=
  if live_server then
    match env.serveEventExc with
    | some _ => 0
    | none => env.serveEventResult 0
  else 0

/-- Exception leaving the outer `try` body (serve.py lines 79-118) before the
`except` clauses see it: a failing initial build propagates at once; a failing
`serve` plugin event propagates before the serve loop starts; otherwise the
outcome of the serve loop (with `KeyboardInterrupt` already recovered). -/
def tryExc (livereload : String) (env : Env) : Option Exc :=
  let live_server := livereload == "dirty" || livereload == "livereload"
  match env.buildExc with
  | some e => some e
  | none =>
    if live_server && env.serveEventExc.isSome then env.serveEventExc
    else loopExc env

/-- Trace of the outer `try` body (serve.py lines 79-118): the initial build
with the mutated config; on success the server construction over the
workspace with the mount path recomputed from the (now rewritten) config
(line 85), the error-handler installation, the watch phase, and, unless the
`serve` event raised, the serve loop and server shutdown on the active
handle. -/
def tryTrace (livereload : String) (watch_theme : Bool) (watchArg : List String)
    (siteDir : String) (env : Env) (fc : Config) : List Ev :=
  let live_server := livereload == "dirty" || livereload == "livereload"
  let dirty := livereload == "dirty"
  let cfg := builderStep watchArg (get_config fc siteDir)
  match env.buildExc with
  | some _ => [Ev.build cfg live_server dirty]
  | none =>
    [Ev.build cfg live_server dirty,
     Ev.serverNew 0 cfg.dev_addr.1 cfg.dev_addr.2 siteDir (mountPathFn cfg),
     Ev.setErrorHandler 0]
      ++ watchEvs watch_theme env cfg live_server
      ++ (if live_server && env.serveEventExc.isSome then []
          else loopEvs (activeHandle env live_server))

/-- serve.py lines 119-124: the `except` clauses at the outer boundary.
A `TemplateError` is re-raised unmodified; any other `OSError` is replaced by
`Abort` carrying the original type name and message; everything else passes
through. -/
def excHandler : Option Exc → Option Exc
  | some (Exc.templateError m) => some (Exc.templateError m)
  | some (Exc.osError n m) => some (Exc.abort (n ++ ": " ++ m))
  | e => e

/-- serve.py lines 41 and 76-77: the actions preceding the outer `try` block,
creating the temporary directory and dispatching the `startup` event with
command `serve` and the dirty flag. -/
def startTrace (siteDir : String) (livereload : String) : List Ev :=
  [Ev.mkdtemp siteDir, Ev.evStartup "serve" (livereload == "dirty")]

/-- serve.py lines 127-128, second half of the `finally` clause: remove the
temporary directory only when `isdir` still finds it. -/
def finallyTail (env : Env) (siteDir : String) : List Ev :=
  if env.externallyRemoved then [] else [Ev.rmtree siteDir]

/-- Trace of a run that enters the outer `try` block: the prefix before the
`try`, the `try` body, then the `finally` clause (shutdown event, conditional
directory removal). -/
def mainTrace (livereload : String) (watch_theme : Bool) (watchArg : List String)
    (siteDir : String) (env : Env) (fc : Config) : List Ev :=
  startTrace siteDir livereload
    ++ tryTrace livereload watch_theme watchArg siteDir env fc
    ++ [Ev.evShutdown]

/-- Full trace of one run of `serve` (serve.py lines 41-128). The calls at
lines 76-77 (`get_config()` and the `startup` event) precede the `try`
statement, so when either of them raises, the run ends with neither the
`finally` clause nor any teardown action. -/
def serveTrace (livereload : String) (watch_theme : Bool) (watchArg : List String)
    (siteDir : String) (env : Env) : List Ev :=
  match env.loadResult with
  | Except.error _ => [Ev.mkdtemp siteDir]
  | Except.ok fc =>
    match env.startupExc with
    | some _ => startTrace siteDir livereload
    | none =>
      mainTrace livereload watch_theme watchArg siteDir env fc
        ++ finallyTail env siteDir

/-- Exception `serve` propagates to its caller: a config-resolution or
startup-event failure propagates untouched (it precedes the `try`); otherwise
the outcome of the `try` body filtered through the `except` clauses of
serve.py lines 119-124. -/
def serveExc (livereload : String) (env : Env) : Option Exc :=
  match env.loadResult with
  | Except.error e => some e
  | Except.ok _ =>
    match env.startupExc with
    | some e => some e
    | none => excHandler (tryExc livereload env)

/-- Whether the temporary directory exists after the run: it was created, no
external agent removed it, and the run itself issued no `rmtree` on it. -/
def dirExistsAfter (siteDir : String) (externallyRemoved : Bool) (tr : List Ev) : Bool :=
  decide (Ev.mkdtemp siteDir ∈ tr) && !externallyRemoved
    && !(decide (Ev.rmtree siteDir ∈ tr))

/-- One run of `serve` (serve.py lines 20-128) in environment `env`, with the
function arguments `livereload`, `watch_theme`, `watch` (here `watchArg`) and
the freshly created temporary directory `siteDir`. -/
def serveRun (livereload : String) (watch_theme : Bool) (watchArg : List String)
    (siteDir : String) (env : Env) : RunResult :=
  let tr := serveTrace livereload watch_theme watchArg siteDir env
  { trace := tr
    exc := serveExc livereload env
    dirExists := dirExistsAfter siteDir env.externallyRemoved tr }

/-- Concrete configuration fixture: no `site_url` set, default dev address. -/
def cfgEx : Config :=
  { site_url := none, dev_addr := ("127.0.0.1", 8000), docs_dir := "docs",
    config_file_path := "mkdocs.yml", theme_dirs := ["theme1"], watch := some ["wcfg"],
    site_dir := "caller-site" }

/-- Concrete configuration fixture with a `site_url` carrying a sub-path. -/
def cfgDocs : Config :=
  { cfgEx with site_url := some "http://example.com/docs/" }

/-- Concrete configuration fixture standing for the config file content at
startup time. -/
def cfgStart : Config :=
  { cfgEx with docs_dir := "docsA" }

/-- Concrete configuration fixture standing for the config file content at
rebuild time, after the file was edited. -/
def cfgRebuild : Config :=
  { cfgEx with docs_dir := "docsB" }

/-- Environment fixture: every external call succeeds, the `serve` plugin
event returns the handle it was given, nothing removes the directory. -/
def envOk : Env :=
  { loadResult := Except.ok cfgEx, startupExc := none, buildExc := none,
    serveEventExc := none, serveEventResult := fun h => h, serveLoopExc := none,
    externallyRemoved := false }

/-- Environment fixture in which the initial config resolution fails. -/
def envCfgErr : Env :=
  { envOk with loadResult := Except.error (Exc.configError "bad config") }

/-- Environment fixture in which the initial build raises a `TemplateError`. -/
def envTpl : Env :=
  { envOk with buildExc := some (Exc.templateError "boom") }

/-- Environment fixture in which the serve loop raises a plain `OSError`. -/
def envOsErr : Env :=
  { envOk with serveLoopExc := some (Exc.osError "BlockingIOError" "busy") }

/-- Environment fixture in which the `serve` plugin event substitutes a
different server handle (handle 7) for the one it was given. -/
def envRepl : Env :=
  { envOk with serveEventResult := fun _ => 7 }

/-- Environment fixture in which the directory disappears externally before
teardown reaches its `isdir` check. -/
def envExtRm : Env :=
  { envOk with externallyRemoved := true }

/-- Environment fixture whose loader state is the rebuild-time config file. -/
def envLoadDocs : Env :=
  { envOk with loadResult := Except.ok cfgDocs }

/-- Filesystem fixture: the workspace contains only `404.html` with bytes
[52, 48, 52]. -/
def fsEx : String → Option (List Nat) :=
  fun p => if p = "/ws/404.html" then some [52, 48, 52] else none

/-- Number of `shutdown` plugin-event dispatches in a trace. -/
def countShutdown : List Ev → Nat
  | [] => 0
  | Ev.evShutdown :: t => countShutdown t + 1
  | _ :: t => countShutdown t

/-- True for every event other than a watch registration or a `serve`
plugin-event dispatch. -/
def nonWatchEv : Ev → Bool
  | Ev.watch _ _ => false
  | Ev.evServe _ => false
  | _ => true

/-- True when the event, if it is a `build` invocation, passes a config whose
output directory is the given workspace path (and true for all other
events). -/
def buildsUse (siteDir : String) : Ev → Bool
  | Ev.build c _ _ => c.site_dir == siteDir
  | _ => true

/-- Splitting at the first occurrence of `c` returns the parts around the
first `c` when the prefix is free of `c`. -/
theorem splitFirst_append_cons (c : Char) (r : List Char) :
    ∀ l : List Char, (∀ x ∈ l, x ≠ c) → splitFirst c (l ++ c :: r) = some (l, r) := by
  intro l
  induction l with
  | nil =>
    intro _
    simp [splitFirst]
  | cons x xs ih =>
    intro h
    have hx : x ≠ c := h x (by simp)
    have hxs : ∀ y ∈ xs, y ≠ c := fun y hy => h y (by simp [hy])
    simp [splitFirst, hx, ih hxs]

/-- Dropping to the first stop character skips over a stop-free prefix. -/
theorem dropToStop_append (stops : List Char) :
    ∀ l r : List Char, (∀ x ∈ l, x ∉ stops) →
      dropToStop stops (l ++ r) = dropToStop stops r := by
  intro l
  induction l with
  | nil =>
    intro r _
    rfl
  | cons x xs ih =>
    intro r h
    have hx : x ∉ stops := h x (by simp)
    have hxs : ∀ y ∈ xs, y ∉ stops := fun y hy => h y (by simp [hy])
    simp [dropToStop, hx, ih r hxs]

/-- A list free of stop characters is kept whole by `takeNonStop`. -/
theorem takeNonStop_all (stops : List Char) :
    ∀ l : List Char, (∀ x ∈ l, x ∉ stops) → takeNonStop stops l = l := by
  intro l
  induction l with
  | nil =>
    intro _
    rfl
  | cons x xs ih =>
    intro h
    have hx : x ∉ stops := h x (by simp)
    have hxs : ∀ y ∈ xs, y ∉ stops := fun y hy => h y (by simp [hy])
    simp [takeNonStop, hx, ih hxs]

/-- The output of `takeNonStop` contains no stop character. -/
theorem takeNonStop_all_output (stops : List Char) :
    ∀ l : List Char, ∀ x ∈ takeNonStop stops l, x ∉ stops := by
  intro l
  induction l with
  | nil =>
    intro x hx
    simp [takeNonStop] at hx
  | cons y ys ih =>
    intro x hx
    by_cases hv : y ∈ stops
    · simp [takeNonStop, hv] at hx
    · rw [takeNonStop, if_neg hv] at hx
      rcases List.mem_cons.mp hx with h1 | h1
      · subst h1
        exact hv
      · exact ih x h1

/-- The path component of a url never contains `?` or `#`. -/
theorem urlsplitPathL_clean (l : List Char) :
    ∀ x ∈ urlsplitPathL l, x ∉ (['?', '#'] : List Char) := by
  unfold urlsplitPathL
  exact takeNonStop_all_output _ _

/-- Re-parsing a rebased url recovers the path: prefixing a path (empty or
starting with a slash, free of `?` and `#`) with `http://` and a host-port
part free of `/`, `?` and `#` yields a url whose `urlsplit` path is exactly
that path. This is why the mount path computed at serve.py line 85 from the
already rewritten `site_url` agrees with the path of the original base url. -/
theorem urlsplitPathL_rebase (hp p : List Char)
    (hhp : ∀ x ∈ hp, x ∉ (['/', '?', '#'] : List Char))
    (hpstart : p.head? = some '/' ∨ p = [])
    (hpclean : ∀ x ∈ p, x ∉ (['?', '#'] : List Char)) :
    urlsplitPathL (('h' :: 't' :: 't' :: 'p' :: ':' :: '/' :: '/' :: hp) ++ p) = p := by
  have h1 : splitFirst ':' (('h' :: 't' :: 't' :: 'p' :: ':' :: '/' :: '/' :: hp) ++ p)
      = some (['h', 't', 't', 'p'], ('/' :: '/' :: hp) ++ p) := by
    have h0 : ∀ x ∈ (['h', 't', 't', 'p'] : List Char), x ≠ ':' := by decide
    have := splitFirst_append_cons ':' (('/' :: '/' :: hp) ++ p) ['h', 't', 't', 'p'] h0
    simpa using this
  have h2 : dropSchemeL (('h' :: 't' :: 't' :: 'p' :: ':' :: '/' :: '/' :: hp) ++ p)
      = ('/' :: '/' :: hp) ++ p := by
    have hs : schemeOk ['h', 't', 't', 'p'] = true := by decide
    unfold dropSchemeL
    rw [h1]
    simp [hs]
  have h3 : netlocStripped (('/' :: '/' :: hp) ++ p) = dropToStop ['/', '?', '#'] (hp ++ p) :=
    rfl
  unfold urlsplitPathL
  rw [h2, h3, dropToStop_append _ hp p hhp]
  rcases hpstart with hs | hs
  · cases p with
    | nil => simp at hs
    | cons a ps =>
      have ha : a = '/' := by simpa using hs
      subst ha
      have hd : dropToStop ['/', '?', '#'] ('/' :: ps) = '/' :: ps := by
        simp [dropToStop]
      rw [hd]
      exact takeNonStop_all _ _ hpclean
  · subst hs
    rfl

/-- String-level rebase property: the `urlsplit` path of `http://` + host-port
+ path is that path again, provided the host-port part is free of `/`, `?`,
`#` and the path is empty or starts with `/` and is free of `?`, `#`. -/
theorem urlsplitPath_rebase (hp mnt : String)
    (hhp : ∀ x ∈ hp.data, x ∉ (['/', '?', '#'] : List Char))
    (hpstart : mnt.data.head? = some '/' ∨ mnt.data = [])
    (hpclean : ∀ x ∈ mnt.data, x ∉ (['?', '#'] : List Char)) :
    urlsplitPath (("http://" ++ hp) ++ mnt) = mnt := by
  have hd : (("http://" ++ hp) ++ mnt).data
      = ('h' :: 't' :: 't' :: 'p' :: ':' :: '/' :: '/' :: hp.data) ++ mnt.data := rfl
  unfold urlsplitPath
  rw [hd, urlsplitPathL_rebase hp.data mnt.data hhp hpstart hpclean]

/-- The mount path the server is constructed with at serve.py line 85 — taken
from the config whose `site_url` was already rewritten by the initial build at
line 81 (the config dict is mutated in place) — equals the mount path of the
original configuration, for any well-formed host-port rendering and original
path. -/
theorem mountPathFn_builderStep (watchArg : List String) (cfg : Config)
    (hhost : ∀ x ∈ (devAddrStr cfg).data, x ∉ (['/', '?', '#'] : List Char))
    (hpath : (mountPathFn cfg).data.head? = some '/' ∨ (mountPathFn cfg).data = []) :
    mountPathFn (builderStep watchArg cfg) = mountPathFn cfg := by
  have hclean : ∀ x ∈ (mountPathFn cfg).data, x ∉ (['?', '#'] : List Char) := by
    show ∀ x ∈ urlsplitPathL (orSlash cfg.site_url).data, x ∉ (['?', '#'] : List Char)
    exact urlsplitPathL_clean _
  have h1 : (builderStep watchArg cfg).site_url
      = some (("http://" ++ devAddrStr cfg) ++ mountPathFn cfg) := rfl
  show urlsplitPath (orSlash (builderStep watchArg cfg).site_url) = mountPathFn cfg
  rw [h1]
  have h2 : orSlash (some (("http://" ++ devAddrStr cfg) ++ mountPathFn cfg))
      = ("http://" ++ devAddrStr cfg) ++ mountPathFn cfg := by
    have hne : ("http://" ++ devAddrStr cfg) ++ mountPathFn cfg ≠ "" := by
      intro hemp
      have hlen := congrArg String.length hemp
      rw [String.length_append, String.length_append] at hlen
      have h7 : "http://".length = 7 := rfl
      have h0 : "".length = 0 := rfl
      rw [h7, h0] at hlen
      omega
    simp [orSlash, hne]
  rw [h2]
  exact urlsplitPath_rebase (devAddrStr cfg) (mountPathFn cfg) hhost hpath hclean

/-- When the initial config resolution and the `startup` event both succeed,
the run's trace is the main trace followed by the teardown tail. -/
theorem serveTrace_ok (livereload : String) (watch_theme : Bool) (watchArg : List String)
    (siteDir : String) (env : Env) (fc : Config)
    (hload : env.loadResult = Except.ok fc) (hstart : env.startupExc = none) :
    serveTrace livereload watch_theme watchArg siteDir env
      = mainTrace livereload watch_theme watchArg siteDir env fc
          ++ finallyTail env siteDir := by
  simp [serveTrace, hload, hstart]

/-- The main trace (everything up to and including the `shutdown` event)
contains no directory removal: `rmtree` can only come from the teardown
tail. -/
theorem rmtree_not_mem_mainTrace (livereload : String) (watch_theme : Bool)
    (watchArg : List String) (siteDir d : String) (env : Env) (fc : Config) :
    Ev.rmtree d ∉ mainTrace livereload watch_theme watchArg siteDir env fc := by
  intro hmem
  unfold mainTrace startTrace tryTrace at hmem
  cases hb : env.buildExc <;> cases hw : watch_theme <;> cases hse : env.serveEventExc <;>
    cases hl : (livereload == "dirty" || livereload == "livereload") <;>
      simp [hb, hw, hse, hl, watchEvs, coreWatchEvs, loopEvs, activeHandle] at hmem

/-- Counting shutdown events distributes over concatenation. -/
theorem countShutdown_append (a b : List Ev) :
    countShutdown (a ++ b) = countShutdown a + countShutdown b := by
  induction a with
  | nil => simp [countShutdown]
  | cons x t ih =>
    cases x <;> (simp [countShutdown, ih]; try omega)

/-- Watch registrations contribute no shutdown events. -/
theorem countShutdown_map_watch (h : Nat) (l : List String) :
    countShutdown (l.map (Ev.watch h)) = 0 := by
  induction l with
  | nil => rfl
  | cons a t ih => simp [countShutdown, ih]

/-- The teardown tail contains no shutdown event. -/
theorem countShutdown_finallyTail (env : Env) (s : String) :
    countShutdown (finallyTail env s) = 0 := by
  unfold finallyTail
  cases her : env.externallyRemoved <;> simp [her, countShutdown]

/-- The main trace dispatches the `shutdown` event exactly once, whatever the
build, serve-event and serve-loop outcomes are. -/
theorem countShutdown_mainTrace (livereload : String) (watch_theme : Bool)
    (watchArg : List String) (siteDir : String) (env : Env) (fc : Config) :
    countShutdown (mainTrace livereload watch_theme watchArg siteDir env fc) = 1 := by
  unfold mainTrace startTrace tryTrace
  cases hb : env.buildExc <;> cases hw : watch_theme <;> cases hse : env.serveEventExc <;>
    cases hl : (livereload == "dirty" || livereload == "livereload") <;>
      simp [hb, hw, hse, hl, watchEvs, coreWatchEvs, loopEvs, activeHandle,
        countShutdown_append, countShutdown, countShutdown_map_watch]

/-- Watch registrations trivially satisfy the build-config predicate. -/
theorem buildsUse_map_watch (s : String) (h : Nat) (l : List String) :
    (l.map (Ev.watch h)).all (fun e => buildsUse s e) = true := by
  induction l with
  | nil => rfl
  | cons a t ih => simp [buildsUse, ih]

/-- C1, counterexample: in a run whose initial config resolution fails, the
workspace directory still exists when `serve` returns control to the caller
and no removal ever happens — `tempfile.mkdtemp` at serve.py line 41 and
`load_config` at line 76 both precede the `try` statement, so the `finally`
clause of lines 125-128 is never entered. This contradicts the claim that the
directory is removed on the config-resolution-error exit path. -/
theorem C1_cex :
    (serveRun "livereload" false [] "/ws" envCfgErr).dirExists = true
    ∧ Ev.rmtree "/ws" ∉ (serveRun "livereload" false [] "/ws" envCfgErr).trace
    ∧ (serveRun "livereload" false [] "/ws" envCfgErr).exc
        = some (Exc.configError "bad config") := by
  decide

/-- C1, amended: the workspace directory is created first in every run; in
every run whose config resolution and `startup` event succeed — whatever the
build, serve-event, serve-loop and external-removal outcomes, covering the
normal, cancellation, content-error and transport-error exit paths — the
directory no longer exists when `serve` returns, the removal (if any) is the
last action of the trace and happens at most once, and an already absent
directory does not change the exception outcome (removal is idempotent).
When config resolution or the `startup` event raises, `serve` returns without
removing the directory. -/
theorem C1_thm (livereload : String) (watch_theme : Bool) (watchArg : List String)
    (siteDir : String) (env : Env) (fc : Config)
    (hload : env.loadResult = Except.ok fc) (hstart : env.startupExc = none) :
    (serveRun livereload watch_theme watchArg siteDir env).dirExists = false
    ∧ (serveRun livereload watch_theme watchArg siteDir env).trace.head?
        = some (Ev.mkdtemp siteDir)
    ∧ (∃ t, (serveRun livereload watch_theme watchArg siteDir env).trace
          = t ++ finallyTail env siteDir ∧ Ev.rmtree siteDir ∉ t)
    ∧ (serveRun livereload watch_theme watchArg siteDir
          { env with externallyRemoved := true }).exc
        = (serveRun livereload watch_theme watchArg siteDir env).exc := by
  have htr : (serveRun livereload watch_theme watchArg siteDir env).trace
      = mainTrace livereload watch_theme watchArg siteDir env fc
          ++ finallyTail env siteDir := by
    simp [serveRun]
    exact serveTrace_ok livereload watch_theme watchArg siteDir env fc hload hstart
  refine ⟨?_, ?_, ⟨mainTrace livereload watch_theme watchArg siteDir env fc, htr,
    rmtree_not_mem_mainTrace livereload watch_theme watchArg siteDir siteDir env fc⟩, rfl⟩
  · show dirExistsAfter siteDir env.externallyRemoved
        (serveTrace livereload watch_theme watchArg siteDir env) = false
    cases her : env.externallyRemoved
    · have hmem : Ev.rmtree siteDir ∈ serveTrace livereload watch_theme watchArg siteDir env := by
        rw [serveTrace_ok livereload watch_theme watchArg siteDir env fc hload hstart]
        simp [finallyTail, her]
      simp [dirExistsAfter, hmem]
    · simp [dirExistsAfter, her]
  · rw [htr]
    simp [mainTrace, startTrace]

/-- C1, witness for the amended theorem at a concrete successful run. -/
theorem C1_wit :
    (serveRun "livereload" false [] "/ws" envOk).dirExists = false
    ∧ (serveRun "livereload" false [] "/ws" envOk).trace.head?
        = some (Ev.mkdtemp "/ws")
    ∧ (∃ t, (serveRun "livereload" false [] "/ws" envOk).trace
          = t ++ finallyTail envOk "/ws" ∧ Ev.rmtree "/ws" ∉ t)
    ∧ (serveRun "livereload" false [] "/ws"
          { envOk with externallyRemoved := true }).exc
        = (serveRun "livereload" false [] "/ws" envOk).exc :=
  C1_thm "livereload" false [] "/ws" envOk cfgEx rfl rfl

/-- C2, counterexample: in a run whose initial config resolution fails, the
`shutdown` plugin event is never dispatched — `load_config` at serve.py line
76 runs before the `try` statement, so the `finally` clause at lines 125-126
never runs. This contradicts the claim that `shutdown` is dispatched exactly
once even when the initial config resolution fails. -/
theorem C2_cex :
    countShutdown (serveRun "livereload" false [] "/ws" envCfgErr).trace = 0 := by
  decide

/-- C2, amended: in every run whose initial config resolution and `startup`
event succeed, the `shutdown` plugin event is dispatched exactly once,
regardless of how the run ends (first build raising, `serve` event raising,
serve loop cancelled or failing, directory externally removed); when config
resolution or the `startup` event raises, it is not dispatched at all. -/
theorem C2_thm (livereload : String) (watch_theme : Bool) (watchArg : List String)
    (siteDir : String) (env : Env) (fc : Config)
    (hload : env.loadResult = Except.ok fc) (hstart : env.startupExc = none) :
    countShutdown (serveRun livereload watch_theme watchArg siteDir env).trace = 1 := by
  have htr : (serveRun livereload watch_theme watchArg siteDir env).trace
      = mainTrace livereload watch_theme watchArg siteDir env fc
          ++ finallyTail env siteDir := by
    simp [serveRun]
    exact serveTrace_ok livereload watch_theme watchArg siteDir env fc hload hstart
  rw [htr, countShutdown_append, countShutdown_mainTrace, countShutdown_finallyTail]

/-- C2, witness for the amended theorem at a concrete successful run. -/
theorem C2_wit :
    countShutdown (serveRun "livereload" false [] "/ws" envOk).trace = 1 :=
  C2_thm "livereload" false [] "/ws" envOk cfgEx rfl rfl

/-- C3: in every run that reaches the `try` block, a `TemplateError` raised by
the build or by the serve flow propagates out of `serve` unmodified (serve.py
lines 119-121), while any other `OSError` is re-raised as an `Abort` whose
message is the original error's type name followed by `: ` and its message
(lines 122-124). -/
theorem C3_thm (livereload : String) (watch_theme : Bool) (watchArg : List String)
    (siteDir : String) (env : Env) (fc : Config)
    (hload : env.loadResult = Except.ok fc) (hstart : env.startupExc = none) :
    (∀ m, env.buildExc = some (Exc.templateError m) →
      (serveRun livereload watch_theme watchArg siteDir env).exc
        = some (Exc.templateError m))
    ∧ (∀ n m, env.buildExc = some (Exc.osError n m) →
      (serveRun livereload watch_theme watchArg siteDir env).exc
        = some (Exc.abort (n ++ ": " ++ m)))
    ∧ (∀ m, env.buildExc = none → env.serveEventExc = none →
        env.serveLoopExc = some (Exc.templateError m) →
      (serveRun livereload watch_theme watchArg siteDir env).exc
        = some (Exc.templateError m))
    ∧ (∀ n m, env.buildExc = none → env.serveEventExc = none →
        env.serveLoopExc = some (Exc.osError n m) →
      (serveRun livereload watch_theme watchArg siteDir env).exc
        = some (Exc.abort (n ++ ": " ++ m))) := by
  refine ⟨?_, ?_, ?_, ?_⟩
  · intro m hb
    simp [serveRun, serveExc, hload, hstart, tryExc, hb, excHandler]
  · intro n m hb
    simp [serveRun, serveExc, hload, hstart, tryExc, hb, excHandler]
  · intro m hb hse hsl
    simp [serveRun, serveExc, hload, hstart, tryExc, hb, hse, loopExc, hsl, excHandler]
  · intro n m hb hse hsl
    simp [serveRun, serveExc, hload, hstart, tryExc, hb, hse, loopExc, hsl, excHandler]

/-- C3, witness: a `TemplateError` from the initial build leaves `serve` as
itself, and an `OSError` from the serve loop becomes an `Abort` carrying the
type name and message. -/
theorem C3_wit :
    (serveRun "livereload" false [] "/ws" envTpl).exc = some (Exc.templateError "boom")
    ∧ (serveRun "livereload" false [] "/ws" envOsErr).exc
        = some (Exc.abort ("BlockingIOError" ++ ": " ++ "busy")) := by
  constructor
  · exact (C3_thm "livereload" false [] "/ws" envTpl cfgEx rfl rfl).1 "boom" rfl
  · exact (C3_thm "livereload" false [] "/ws" envOsErr cfgEx rfl rfl).2.2.2
      "BlockingIOError" "busy" rfl rfl rfl

/-- C4, counterexample: the rebuild callback handed to the preview server is
`builder` (serve.py line 84), and the server invokes it with no argument
(spec section 6, `construct(rebuildCallback, ...)`); with no argument,
`builder` calls `get_config()` at line 63 and therefore builds with a config
freshly resolved from the config file as it stands at rebuild time — here
`cfgRebuild` with `docs_dir = "docsB"` — and not with the config cached at
startup (resolved from `cfgStart`, `docs_dir = "docsA"`). -/
theorem C4_cex :
    (builderRun cfgRebuild "/ws" [] true false none).map (fun b => b.config.docs_dir)
      = ["docsB"]
    ∧ (get_config cfgStart "/ws").docs_dir = "docsA"
    ∧ (builderRun cfgRebuild "/ws" [] true false none).map (fun b => b.config)
        ≠ [builderStep [] (get_config cfgStart "/ws")] := by
  decide

/-- C4, amended: every invocation of the rebuild callback performs exactly one
build; an invocation with no config (how the preview server triggers rebuilds)
uses a config freshly resolved from the config file as it stands at invocation
time — the config file is re-read on every such rebuild — while the startup
config is used only when it is passed explicitly, as the initial build at
serve.py line 81 does. -/
theorem C4_thm (fcNow : Config) (siteDir : String) (watchArg : List String)
    (ls d : Bool) :
    (builderRun fcNow siteDir watchArg ls d none).length = 1
    ∧ (builderRun fcNow siteDir watchArg ls d none).map (fun b => b.config)
        = [builderStep watchArg (get_config fcNow siteDir)]
    ∧ ∀ c : Config, builderRun fcNow siteDir watchArg ls d (some c)
        = [{ config := builderStep watchArg c, liveServer := ls, dirty := d }] :=
  ⟨rfl, rfl, fun _ => rfl⟩

/-- C4, witness for the amended theorem at the rebuild-time loader state. -/
theorem C4_wit :
    (builderRun cfgRebuild "/ws" ["cli"] true false none).length = 1
    ∧ (builderRun cfgRebuild "/ws" ["cli"] true false none).map (fun b => b.config)
        = [builderStep ["cli"] (get_config cfgRebuild "/ws")]
    ∧ ∀ c : Config, builderRun cfgRebuild "/ws" ["cli"] true false (some c)
        = [{ config := builderStep ["cli"] c, liveServer := true, dirty := false }] :=
  C4_thm cfgRebuild "/ws" ["cli"] true false

/-- C7: the installed error handler returns the bytes of `{code}.html` inside
the workspace exactly when the code is 404 or 500 and the file exists in the
request-time filesystem; in every other case it returns nothing (serve.py
lines 88-95). -/
theorem C7_thm (siteDir : String) (fs : String → Option (List Nat)) (code : Nat) :
    (∀ b, error_handler siteDir fs code = some b ↔
      ((code = 404 ∨ code = 500)
        ∧ fs (siteDir ++ "/" ++ toString code ++ ".html") = some b))
    ∧ ((error_handler siteDir fs code).isSome
        = ((code == 404 || code == 500)
            && (fs (siteDir ++ "/" ++ toString code ++ ".html")).isSome)) := by
  constructor
  · intro b
    cases hc : (code == 404 || code == 500)
    · have hp : ¬(code = 404 ∨ code = 500) := by simpa using hc
      simp [error_handler, hc, hp]
    · have hp : code = 404 ∨ code = 500 := by simpa using hc
      cases hfs : fs (siteDir ++ "/" ++ toString code ++ ".html") <;>
        simp [error_handler, hc, hp, hfs]
  · cases hc : (code == 404 || code == 500)
    · simp [error_handler, hc]
    · cases hfs : fs (siteDir ++ "/" ++ toString code ++ ".html") <;>
        simp [error_handler, hc, hfs]

/-- C7, witness: with only `404.html` present, the handler serves its bytes
for 404, and returns nothing for 500 (page missing) and 200 (code outside the
set). -/
theorem C7_wit :
    error_handler "/ws" fsEx 404 = some [52, 48, 52]
    ∧ (error_handler "/ws" fsEx 500).isSome = false
    ∧ (error_handler "/ws" fsEx 200).isSome = false := by
  refine ⟨((C7_thm "/ws" fsEx 404).1 [52, 48, 52]).mpr ⟨Or.inl rfl, by decide⟩, ?_, ?_⟩
  · rw [(C7_thm "/ws" fsEx 500).2]
    decide
  · rw [(C7_thm "/ws" fsEx 200).2]
    decide

/-- C5: in every run that reaches the initial build, the config passed to
`build` carries the base url `http://` + `host:port` + the path component of
the originally configured base url (an unset or empty base url counting as
path `/`), and the preview server is constructed with exactly that path
component as its mount path — even though serve.py line 85 recomputes
`mount_path` from the config whose `site_url` line 72 already rewrote. The
hypotheses state well-formedness: the host-port rendering contains no `/`,
`?`, `#`, and the original path component is empty or starts with `/`. -/
theorem C5_thm (livereload : String) (watch_theme : Bool) (watchArg : List String)
    (siteDir : String) (env : Env) (fc : Config)
    (hload : env.loadResult = Except.ok fc)
    (hstart : env.startupExc = none)
    (hbuild : env.buildExc = none)
    (hhost : ∀ x ∈ (devAddrStr fc).data, x ∉ (['/', '?', '#'] : List Char))
    (hpath : (mountPathFn fc).data.head? = some '/' ∨ (mountPathFn fc).data = []) :
    (builderStep watchArg (get_config fc siteDir)).site_url
      = some ("http://" ++ devAddrStr fc ++ urlsplitPath (orSlash fc.site_url))
    ∧ Ev.build (builderStep watchArg (get_config fc siteDir))
        (livereload == "dirty" || livereload == "livereload") (livereload == "dirty")
        ∈ (serveRun livereload watch_theme watchArg siteDir env).trace
    ∧ Ev.serverNew 0 fc.dev_addr.1 fc.dev_addr.2 siteDir (mountPathFn fc)
        ∈ (serveRun livereload watch_theme watchArg siteDir env).trace := by
  have hmnt : mountPathFn (builderStep watchArg (get_config fc siteDir)) = mountPathFn fc :=
    mountPathFn_builderStep watchArg (get_config fc siteDir) hhost hpath
  have htrace : (serveRun livereload watch_theme watchArg siteDir env).trace
      = mainTrace livereload watch_theme watchArg siteDir env fc
          ++ finallyTail env siteDir := by
    simp [serveRun]
    exact serveTrace_ok livereload watch_theme watchArg siteDir env fc hload hstart
  refine ⟨rfl, ?_, ?_⟩
  · rw [htrace]
    unfold mainTrace startTrace tryTrace
    simp [hbuild, List.mem_append]
  · rw [← hmnt, htrace]
    unfold mainTrace startTrace tryTrace
    simp [hbuild, List.mem_append, builderStep, get_config, load_config]

/-- C5, witness: with base url `http://example.com/docs/` and dev address
`127.0.0.1:8000` the rewritten base url is `http://127.0.0.1:8000/docs/` and
the server is mounted under `/docs/`; with base url unset the path is `/`. -/
theorem C5_wit :
    (builderStep [] (get_config cfgDocs "/ws")).site_url
      = some ("http://" ++ devAddrStr cfgDocs ++ urlsplitPath (orSlash cfgDocs.site_url))
    ∧ Ev.serverNew 0 cfgDocs.dev_addr.1 cfgDocs.dev_addr.2 "/ws" (mountPathFn cfgDocs)
        ∈ (serveRun "livereload" false [] "/ws" envLoadDocs).trace
    ∧ mountPathFn cfgDocs = "/docs/"
    ∧ (builderStep [] (get_config cfgDocs "/ws")).site_url
        = some "http://127.0.0.1:8000/docs/"
    ∧ mountPathFn cfgEx = "/" := by
  have h := C5_thm "livereload" false [] "/ws" envLoadDocs cfgDocs rfl rfl rfl
    (by decide) (by decide)
  exact ⟨h.1, h.2.2, by decide, by decide, by decide⟩

/-- Exact trace of a live-reload run whose config resolution, `startup`
event, initial build and `serve` event all succeed. -/
theorem serveTrace_live (livereload : String) (watch_theme : Bool) (watchArg : List String)
    (siteDir : String) (env : Env) (fc : Config)
    (hlive : (livereload == "dirty" || livereload == "livereload") = true)
    (hload : env.loadResult = Except.ok fc)
    (hstart : env.startupExc = none)
    (hbuild : env.buildExc = none)
    (hserve : env.serveEventExc = none) :
    (serveRun livereload watch_theme watchArg siteDir env).trace
      = [Ev.mkdtemp siteDir, Ev.evStartup "serve" (livereload == "dirty"),
         Ev.build (builderStep watchArg (get_config fc siteDir))
           (livereload == "dirty" || livereload == "livereload") (livereload == "dirty"),
         Ev.serverNew 0 fc.dev_addr.1 fc.dev_addr.2 siteDir
           (mountPathFn (builderStep watchArg (get_config fc siteDir))),
         Ev.setErrorHandler 0,
         Ev.watch 0 fc.docs_dir, Ev.watch 0 fc.config_file_path]
        ++ (if watch_theme then fc.theme_dirs.map (Ev.watch 0) else [])
        ++ [Ev.evServe 0]
        ++ (mergedWatch watchArg fc).map (Ev.watch (env.serveEventResult 0))
        ++ [Ev.serveLoop (env.serveEventResult 0),
            Ev.serverShutdown (env.serveEventResult 0), Ev.evShutdown]
        ++ finallyTail env siteDir := by
  have htrace : (serveRun livereload watch_theme watchArg siteDir env).trace
      = mainTrace livereload watch_theme watchArg siteDir env fc
          ++ finallyTail env siteDir := by
    simp [serveRun]
    exact serveTrace_ok livereload watch_theme watchArg siteDir env fc hload hstart
  rw [htrace]
  unfold mainTrace startTrace tryTrace
  simp [hbuild, hserve, hlive, watchEvs, coreWatchEvs, loopEvs, activeHandle,
    mergedWatch, builderStep, get_config, load_config]

/-- C6: in every live-reload run that reaches the serve loop, the trace is
exactly: directory creation, the `startup` event, the first build, server
construction, error-handler installation, the core watches (docs dir, config
file, theme dirs when theme watching is on), the `serve` event, the extra
watches from the merged watch list, the serve loop, the server shutdown, the
`shutdown` event, and the teardown removal — so `startup` precedes the first
build, `serve` follows the server construction and its core watches and
precedes every extra watch registration, and `shutdown` happens during
teardown after the serve loop ends. -/
theorem C6_thm (livereload : String) (watch_theme : Bool) (watchArg : List String)
    (siteDir : String) (env : Env) (fc : Config)
    (hlive : (livereload == "dirty" || livereload == "livereload") = true)
    (hload : env.loadResult = Except.ok fc)
    (hstart : env.startupExc = none)
    (hbuild : env.buildExc = none)
    (hserve : env.serveEventExc = none) :
    (serveRun livereload watch_theme watchArg siteDir env).trace
      = [Ev.mkdtemp siteDir, Ev.evStartup "serve" (livereload == "dirty"),
         Ev.build (builderStep watchArg (get_config fc siteDir))
           (livereload == "dirty" || livereload == "livereload") (livereload == "dirty"),
         Ev.serverNew 0 fc.dev_addr.1 fc.dev_addr.2 siteDir
           (mountPathFn (builderStep watchArg (get_config fc siteDir))),
         Ev.setErrorHandler 0,
         Ev.watch 0 fc.docs_dir, Ev.watch 0 fc.config_file_path]
        ++ (if watch_theme then fc.theme_dirs.map (Ev.watch 0) else [])
        ++ [Ev.evServe 0]
        ++ (mergedWatch watchArg fc).map (Ev.watch (env.serveEventResult 0))
        ++ [Ev.serveLoop (env.serveEventResult 0),
            Ev.serverShutdown (env.serveEventResult 0), Ev.evShutdown]
        ++ finallyTail env siteDir :=
  serveTrace_live livereload watch_theme watchArg siteDir env fc hlive hload hstart
    hbuild hserve

/-- C6, witness at a concrete live-reload run with theme watching on. -/
theorem C6_wit :
    (serveRun "livereload" true ["cli"] "/ws" envOk).trace
      = [Ev.mkdtemp "/ws", Ev.evStartup "serve" false,
         Ev.build (builderStep ["cli"] (get_config cfgEx "/ws")) true false,
         Ev.serverNew 0 "127.0.0.1" 8000 "/ws" "/", Ev.setErrorHandler 0,
         Ev.watch 0 "docs", Ev.watch 0 "mkdocs.yml", Ev.watch 0 "theme1",
         Ev.evServe 0, Ev.watch 0 "wcfg", Ev.watch 0 "cli",
         Ev.serveLoop 0, Ev.serverShutdown 0, Ev.evShutdown, Ev.rmtree "/ws"] := by
  rw [C6_thm "livereload" true ["cli"] "/ws" envOk cfgEx (by decide) rfl rfl rfl rfl]
  decide

/-- C8: in every live-reload run in which the `serve` plugin event returns a
replacement handle, everything after that event — the registration of the
extra (merged) watch paths, the blocking serve loop and the server shutdown —
operates on the handle the event returned (`env.serveEventResult 0`), and no
serve loop or server shutdown happens before the event. -/
theorem C8_thm (livereload : String) (watch_theme : Bool) (watchArg : List String)
    (siteDir : String) (env : Env) (fc : Config)
    (hlive : (livereload == "dirty" || livereload == "livereload") = true)
    (hload : env.loadResult = Except.ok fc)
    (hstart : env.startupExc = none)
    (hbuild : env.buildExc = none)
    (hserve : env.serveEventExc = none) :
    ∃ pre, (serveRun livereload watch_theme watchArg siteDir env).trace
        = pre ++ [Ev.evServe 0]
          ++ (mergedWatch watchArg fc).map (Ev.watch (env.serveEventResult 0))
          ++ [Ev.serveLoop (env.serveEventResult 0),
              Ev.serverShutdown (env.serveEventResult 0), Ev.evShutdown]
          ++ finallyTail env siteDir
      ∧ ∀ h : Nat, Ev.serveLoop h ∉ pre ∧ Ev.serverShutdown h ∉ pre := by
  refine ⟨[Ev.mkdtemp siteDir, Ev.evStartup "serve" (livereload == "dirty"),
      Ev.build (builderStep watchArg (get_config fc siteDir))
        (livereload == "dirty" || livereload == "livereload") (livereload == "dirty"),
      Ev.serverNew 0 fc.dev_addr.1 fc.dev_addr.2 siteDir
        (mountPathFn (builderStep watchArg (get_config fc siteDir))),
      Ev.setErrorHandler 0,
      Ev.watch 0 fc.docs_dir, Ev.watch 0 fc.config_file_path]
      ++ (if watch_theme then fc.theme_dirs.map (Ev.watch 0) else []), ?_, ?_⟩
  · rw [serveTrace_live livereload watch_theme watchArg siteDir env fc hlive hload hstart
      hbuild hserve]
  · intro h
    cases hw : watch_theme <;>
      simp [List.mem_append, List.mem_cons, List.mem_map]

/-- C8, witness: a run whose `serve` event substitutes handle 7 registers the
extra watches and runs the loop and shutdown on handle 7. -/
theorem C8_wit :
    ∃ pre, (serveRun "livereload" false [] "/ws" envRepl).trace
        = pre ++ [Ev.evServe 0]
          ++ (mergedWatch [] cfgEx).map (Ev.watch 7)
          ++ [Ev.serveLoop 7, Ev.serverShutdown 7, Ev.evShutdown]
          ++ finallyTail envRepl "/ws"
      ∧ ∀ h : Nat, Ev.serveLoop h ∉ pre ∧ Ev.serverShutdown h ∉ pre :=
  C8_thm "livereload" false [] "/ws" envRepl cfgEx (by decide) rfl rfl rfl rfl

/-- C9: every config resolution performed by `serve` yields a config whose
output directory is the temporary workspace path — the initial resolution,
the fresh resolution inside the rebuild callback, and consequently every
`build` invocation in every run's trace uses a config whose `site_dir` is the
workspace, regardless of the caller- or file-specified site directory. -/
theorem C9_thm :
    (∀ fc siteDir, (get_config fc siteDir).site_dir = siteDir)
    ∧ (∀ (fc : Config) (siteDir : String) (watchArg : List String) (ls d : Bool),
        (builderRun fc siteDir watchArg ls d none).all
          (fun b => b.config.site_dir == siteDir) = true)
    ∧ (∀ (livereload : String) (watch_theme : Bool) (watchArg : List String)
        (siteDir : String) (env : Env),
        (serveRun livereload watch_theme watchArg siteDir env).trace.all
          (fun e => buildsUse siteDir e) = true) := by
  refine ⟨fun fc siteDir => rfl, fun fc siteDir watchArg ls d => by
    simp [builderRun, builderStep, get_config, load_config], ?_⟩
  intro livereload watch_theme watchArg siteDir env
  simp only [serveRun, serveTrace]
  cases hl : env.loadResult with
  | error e => simp [buildsUse]
  | ok fc =>
    cases hs : env.startupExc with
    | some e => simp [startTrace, buildsUse]
    | none =>
      unfold mainTrace startTrace tryTrace finallyTail
      cases hb : env.buildExc <;> cases hw : watch_theme <;>
        cases hse : env.serveEventExc <;>
          cases hlv : (livereload == "dirty" || livereload == "livereload") <;>
            cases her : env.externallyRemoved <;>
              simp [hb, hw, hse, hlv, her, watchEvs, coreWatchEvs, loopEvs, activeHandle,
                buildsUse, buildsUse_map_watch, builderStep, get_config, load_config]

/-- C9, witness at concrete inputs: the workspace override wins in the initial
resolution, in a rebuild resolution, and in every build of a full run. -/
theorem C9_wit :
    (get_config cfgEx "/ws").site_dir = "/ws"
    ∧ (builderRun cfgEx "/ws" [] true false none).all
        (fun b => b.config.site_dir == "/ws") = true
    ∧ (serveRun "livereload" true ["cli"] "/ws" envOk).trace.all
        (fun e => buildsUse "/ws" e) = true :=
  ⟨C9_thm.1 cfgEx "/ws", C9_thm.2.1 cfgEx "/ws" [] true false,
    C9_thm.2.2 "livereload" true ["cli"] "/ws" envOk⟩

/-- C10: in every run with live reload disabled (any mode other than
`livereload` or `dirty`) that reaches the server construction, the trace is
exactly: directory creation, `startup` event, one build, server construction,
error-handler installation, serve loop on the original handle, server
shutdown, `shutdown` event and teardown — in particular no watch path at all
is registered and the `serve` event is never dispatched, while the serve
loop, the server shutdown and the `startup` and `shutdown` events still
happen. -/
theorem C10_thm (livereload : String) (watch_theme : Bool) (watchArg : List String)
    (siteDir : String) (env : Env) (fc : Config)
    (hnl : (livereload == "dirty" || livereload == "livereload") = false)
    (hload : env.loadResult = Except.ok fc)
    (hstart : env.startupExc = none)
    (hbuild : env.buildExc = none) :
    (serveRun livereload watch_theme watchArg siteDir env).trace
      = [Ev.mkdtemp siteDir, Ev.evStartup "serve" false,
         Ev.build (builderStep watchArg (get_config fc siteDir)) false false,
         Ev.serverNew 0 fc.dev_addr.1 fc.dev_addr.2 siteDir
           (mountPathFn (builderStep watchArg (get_config fc siteDir))),
         Ev.setErrorHandler 0, Ev.serveLoop 0, Ev.serverShutdown 0, Ev.evShutdown]
        ++ finallyTail env siteDir
    ∧ (serveRun livereload watch_theme watchArg siteDir env).trace.all
        (fun e => nonWatchEv e) = true
    ∧ countShutdown (serveRun livereload watch_theme watchArg siteDir env).trace = 1 := by
  have hd : (livereload == "dirty") = false := by
    cases hv : (livereload == "dirty")
    · rfl
    · rw [hv] at hnl
      simp at hnl
  have hlr : (livereload == "livereload") = false := by
    cases hv : (livereload == "livereload")
    · rfl
    · rw [hv] at hnl
      simp at hnl
  have htrace : (serveRun livereload watch_theme watchArg siteDir env).trace
      = mainTrace livereload watch_theme watchArg siteDir env fc
          ++ finallyTail env siteDir := by
    simp [serveRun]
    exact serveTrace_ok livereload watch_theme watchArg siteDir env fc hload hstart
  have h1 : (serveRun livereload watch_theme watchArg siteDir env).trace
      = [Ev.mkdtemp siteDir, Ev.evStartup "serve" false,
         Ev.build (builderStep watchArg (get_config fc siteDir)) false false,
         Ev.serverNew 0 fc.dev_addr.1 fc.dev_addr.2 siteDir
           (mountPathFn (builderStep watchArg (get_config fc siteDir))),
         Ev.setErrorHandler 0, Ev.serveLoop 0, Ev.serverShutdown 0, Ev.evShutdown]
        ++ finallyTail env siteDir := by
    rw [htrace]
    unfold mainTrace startTrace tryTrace
    simp [hbuild, hnl, hd, hlr, watchEvs, loopEvs, activeHandle,
      builderStep, get_config, load_config]
  refine ⟨h1, ?_, ?_⟩
  · rw [h1]
    unfold finallyTail
    cases her : env.externallyRemoved <;> simp [nonWatchEv]
  · rw [h1, countShutdown_append, countShutdown_finallyTail]
    simp [countShutdown]

/-- C10, witness at the concrete mode `disabled`. -/
theorem C10_wit :
    (serveRun "disabled" true ["cli"] "/ws" envOk).trace
      = [Ev.mkdtemp "/ws", Ev.evStartup "serve" false,
         Ev.build (builderStep ["cli"] (get_config cfgEx "/ws")) false false,
         Ev.serverNew 0 cfgEx.dev_addr.1 cfgEx.dev_addr.2 "/ws"
           (mountPathFn (builderStep ["cli"] (get_config cfgEx "/ws"))),
         Ev.setErrorHandler 0, Ev.serveLoop 0, Ev.serverShutdown 0, Ev.evShutdown]
        ++ finallyTail envOk "/ws"
    ∧ (serveRun "disabled" true ["cli"] "/ws" envOk).trace.all
        (fun e => nonWatchEv e) = true
    ∧ countShutdown (serveRun "disabled" true ["cli"] "/ws" envOk).trace = 1 :=
  C10_thm "disabled" true ["cli"] "/ws" envOk cfgEx (by decide) rfl rfl rfl

end MkServe
